import Mathlib

set_option maxHeartbeats 1000000
set_option linter.unusedVariables false

namespace PodDiag

/-! Basic string machinery modelling the Python primitives used by the
repository: substring containment, split, strip, splitlines,
negative-index slicing, and lower-casing. Strings are handled through
their character lists. -/

/-- Whitespace characters recognised by Python str.strip and the regular
expression class backslash-s (ASCII range). -/
def isPySpace (c : Char) : Bool :=
  c = ' ' || c = '\t' || c = '\n' || c = '\r' || c = '\x0b' || c = '\x0c'

/-- Check that the first list is a prefix of the second. -/
def isPrefixL : List Char → List Char → Bool
  | [], _ => true
  | _ :: _, [] => false
  | a :: as, b :: bs => a == b && isPrefixL as bs

/-- Model of the Python substring test needle in hay over char lists. -/
def inStrL (n : List Char) : List Char → Bool
  | [] => isPrefixL n []
  | c :: rest => isPrefixL n (c :: rest) || inStrL n rest

/-- Model of the Python substring test needle in hay. -/
def inStr (needle hay : String) : Bool :=
  inStrL needle.data hay.data

/-- Model of one step of Python str.split: the text before the first
occurrence of the separator, and, when the separator occurs, the text
after it. -/
def splitFirst (sep : List Char) : List Char → List Char × Option (List Char)
  | [] => ([], none)
  | c :: rest =>
    if isPrefixL sep (c :: rest) then ([], some ((c :: rest).drop sep.length))
    else
      let p := splitFirst sep rest
      (c :: p.1, p.2)

/-- Strip leading and trailing whitespace, modelling Python str.strip. -/
def trimL (l : List Char) : List Char :=
  ((l.dropWhile isPySpace).reverse.dropWhile isPySpace).reverse

/-- Model of Python str.splitlines restricted to the line terminators
newline, carriage return, and carriage return + newline. -/
def splitlinesL : List Char → List Char → List String
  | cur, [] => if cur.isEmpty then [] else [String.mk cur.reverse]
  | cur, '\r' :: '\n' :: rest => String.mk cur.reverse :: splitlinesL [] rest
  | cur, '\r' :: rest => String.mk cur.reverse :: splitlinesL [] rest
  | cur, '\n' :: rest => String.mk cur.reverse :: splitlinesL [] rest
  | cur, c :: rest => splitlinesL (c :: cur) rest

/-- Model of Python str.splitlines. -/
def splitlines (s : String) : List String :=
  splitlinesL [] s.data

/-- Model of Python str.lower for the ASCII range the engine matches
on, written over the character list so that it evaluates inside the
kernel. -/
def toLowerStr (s : String) : String :=
  String.mk (s.data.map Char.toLower)

/-- Model of the Python negative slice l[-n:]: the last n elements. -/
def lastN (n : Nat) (l : List String) : List String :=
  l.drop (l.length - n)

/-! Dynamic values. Python passes heterogeneous data (strings, ints,
lists, dicts, None, booleans) through the diagnosis reports and the
error-payload parser, so the embedding uses one dynamic value type.
Dictionaries are association lists in insertion order; their keys range
over the hashable values a decoded payload can put there. Cross-type
numeric key equality (Python treats 1, 1.0 and True as one key) is not
modelled; every key this program itself writes is a string. -/

/-- A dictionary key: one of the hashable values that can reach a dict
through this program. -/
inductive PyKey where
  | str (s : String)
  | int (n : Int)
  | jnum (lit : String)
  | bool (b : Bool)
  | null
deriving DecidableEq

inductive PyVal where
  | str (s : String)
  | int (n : Int)
  | jnum (lit : String)
  | bool (b : Bool)
  | null
  | list (elems : List PyVal)
  | dict (entries : List (PyKey × PyVal))

/-- A key read back as a plain value. -/
def pyKeyVal : PyKey → PyVal
  | .str s => .str s
  | .int n => .int n
  | .jnum lit => .jnum lit
  | .bool b => .bool b
  | .null => .null

/-- Association-list dictionary in Python insertion order. -/
abbrev PyDict := List (PyKey × PyVal)

/-- Look up a string key, first occurrence. -/
def dictLookup (m : PyDict) (k : String) : Option PyVal :=
  match m with
  | [] => none
  | (k2, v) :: rest => if k2 = .str k then some v else dictLookup rest k

/-- Model of the Python assignment d[k] = v: overwrite in place when the
key is present, append otherwise. -/
def dictSetK (m : PyDict) (k : PyKey) (v : PyVal) : PyDict :=
  match m with
  | [] => [(k, v)]
  | (k2, v2) :: rest =>
    if k2 = k then (k2, v) :: rest else (k2, v2) :: dictSetK rest k v

/-- Assignment under a string key, the only kind this program writes
directly. -/
def dictSet (m : PyDict) (k : String) (v : PyVal) : PyDict :=
  dictSetK m (.str k) v

/-- Model of Python dict.update with a mapping argument: assign every
pair of the second mapping into the first, in order. -/
def dictUpdate (m : PyDict) (upd : PyDict) : PyDict :=
  upd.foldl (fun acc kv => dictSetK acc kv.1 kv.2) m

/-! Model of the regular-expression search in app.py line 27:
re.search over the pattern
backslash-open-paren, a digit group, backslash-close-paren, one or more
whitespace, the literal Reason colon, one or more whitespace, a letter
group. The character classes that follow each greedy group are disjoint
from the group class, so greedy maximal munch at each position is exactly
the backtracking semantics, and the search tries positions left to
right. -/

/-- Attempt the pattern at the head of the character list, returning the
digit group and the letter group on success. -/
def reMatchAt (s : List Char) : Option (String × String) :=
  match s with
  | '(' :: r0 =>
    let ds := r0.takeWhile Char.isDigit
    if ds.isEmpty then none else
    match r0.dropWhile Char.isDigit with
    | ')' :: r1 =>
      if (r1.takeWhile isPySpace).isEmpty then none else
      let r2 := r1.dropWhile isPySpace
      if isPrefixL "Reason:".data r2 then
        let r3 := r2.drop 7
        if (r3.takeWhile isPySpace).isEmpty then none else
        let r4 := r3.dropWhile isPySpace
        let as := r4.takeWhile Char.isAlpha
        if as.isEmpty then none else some (String.mk ds, String.mk as)
      else none
    | _ => none
  | _ => none

/-- Model of re.search: try the pattern at every position, leftmost
match wins. -/
def reSearch : List Char → Option (String × String)
  | [] => none
  | c :: rest =>
    match reMatchAt (c :: rest) with
    | some r => some r
    | none => reSearch rest

/-! Model of json.loads over the grammar Python accepts: objects,
arrays, double-quoted strings with escapes, numbers, true, false, null,
and the Python extensions NaN, Infinity and -Infinity. Numbers without
fraction or exponent part become Python ints; other numeric literals,
including the three non-finite ones, are kept as literals. Fuel bounds
the recursion and is instantiated with the input length, which
dominates the recursion depth. -/

/-- Value of one hexadecimal digit, written over the character code:
48 to 57 are the decimal digits, 97 to 102 the lower-case letters a to
f, and 65 to 70 the upper-case ones. -/
def hexVal (c : Char) : Option Nat :=
  let n := c.toNat
  if 48 ≤ n ∧ n ≤ 57 then some (n - 48)
  else if 97 ≤ n ∧ n ≤ 102 then some (n - 87)
  else if 65 ≤ n ∧ n ≤ 70 then some (n - 55)
  else none

/-- JSON insignificant whitespace. -/
def isJsonWs (c : Char) : Bool :=
  c = ' ' || c = '\t' || c = '\n' || c = '\r'

/-- Parse the body of a JSON string after the opening quote, returning
the decoded content and the remainder after the closing quote. -/
def jsonString : Nat → List Char → Option (List Char × List Char)
  | 0, _ => none
  | _ + 1, [] => none
  | _ + 1, '"' :: rest => some ([], rest)
  | fuel + 1, '\\' :: esc =>
    match esc with
    | '"' :: rest => (jsonString fuel rest).map fun p => ('"' :: p.1, p.2)
    | '\\' :: rest => (jsonString fuel rest).map fun p => ('\\' :: p.1, p.2)
    | '/' :: rest => (jsonString fuel rest).map fun p => ('/' :: p.1, p.2)
    | 'b' :: rest => (jsonString fuel rest).map fun p => ('\x08' :: p.1, p.2)
    | 'f' :: rest => (jsonString fuel rest).map fun p => ('\x0c' :: p.1, p.2)
    | 'n' :: rest => (jsonString fuel rest).map fun p => ('\n' :: p.1, p.2)
    | 'r' :: rest => (jsonString fuel rest).map fun p => ('\r' :: p.1, p.2)
    | 't' :: rest => (jsonString fuel rest).map fun p => ('\t' :: p.1, p.2)
    | 'u' :: h1 :: h2 :: h3 :: h4 :: rest =>
      match hexVal h1, hexVal h2, hexVal h3, hexVal h4 with
      | some a, some b, some c, some d =>
        (jsonString fuel rest).map fun p =>
          (Char.ofNat (((a * 16 + b) * 16 + c) * 16 + d) :: p.1, p.2)
      | _, _, _, _ => none
    | _ => none
  | fuel + 1, c :: rest =>
    if c.toNat < 32 then none
    else (jsonString fuel rest).map fun p => (c :: p.1, p.2)

/-- Parse a JSON number at the head of the input, following the strict
grammar: optional minus, integer part without leading zeros, optional
fraction, optional exponent. -/
def jsonNumber (cs : List Char) : Option (PyVal × List Char) :=
  let (sign, afterSign) :=
    match cs with
    | '-' :: rest => (true, rest)
    | _ => (false, cs)
  match afterSign with
  | [] => none
  | c :: _ =>
    if !c.isDigit then none
    else
      let intPart := afterSign.takeWhile Char.isDigit
      if c = '0' && intPart.length > 1 then none
      else
        let afterInt := afterSign.dropWhile Char.isDigit
        let (fracPart, afterFrac) :=
          match afterInt with
          | '.' :: r =>
            let f := r.takeWhile Char.isDigit
            if f.isEmpty then ([], afterInt) else ('.' :: f, r.dropWhile Char.isDigit)
          | _ => ([], afterInt)
        let fracOk := match afterInt with | '.' :: _ => !fracPart.isEmpty | _ => true
        if !fracOk then none
        else
          let (expPart, afterExp) :=
            match afterFrac with
            | e :: r =>
              if e = 'e' || e = 'E' then
                let (es, r2) :=
                  match r with
                  | '+' :: r2 => (['+'], r2)
                  | '-' :: r2 => (['-'], r2)
                  | _ => ([], r)
                let ds := r2.takeWhile Char.isDigit
                if ds.isEmpty then ([], none)
                else (e :: es ++ ds, some (r2.dropWhile Char.isDigit))
              else ([], some afterFrac)
            | [] => ([], some afterFrac)
          match afterExp with
          | none => none
          | some rest =>
            if fracPart.isEmpty && expPart.isEmpty then
              let n : Int := intPart.foldl (fun a c => a * 10 + (c.toNat - '0'.toNat)) 0
              some (.int (if sign then -n else n), rest)
            else
              some (.jnum (String.mk ((if sign then ['-'] else []) ++ intPart ++ fracPart ++ expPart)), rest)

mutual

/-- Parse one JSON value, returning it with the unconsumed remainder. -/
def jsonValue : Nat → List Char → Option (PyVal × List Char)
  | 0, _ => none
  | fuel + 1, cs =>
    let cs := cs.dropWhile isJsonWs
    match cs with
    | 't' :: 'r' :: 'u' :: 'e' :: rest => some (.bool true, rest)
    | 'f' :: 'a' :: 'l' :: 's' :: 'e' :: rest => some (.bool false, rest)
    | 'n' :: 'u' :: 'l' :: 'l' :: rest => some (.null, rest)
    | 'N' :: 'a' :: 'N' :: rest => some (.jnum "nan", rest)
    | 'I' :: 'n' :: 'f' :: 'i' :: 'n' :: 'i' :: 't' :: 'y' :: rest =>
      some (.jnum "inf", rest)
    | '-' :: 'I' :: 'n' :: 'f' :: 'i' :: 'n' :: 'i' :: 't' :: 'y' :: rest =>
      some (.jnum "-inf", rest)
    | '"' :: rest =>
      (jsonString (rest.length + 1) rest).map fun p => (.str (String.mk p.1), p.2)
    | '[' :: rest =>
      let rest := rest.dropWhile isJsonWs
      match rest with
      | ']' :: r => some (.list [], r)
      | _ => jsonElems fuel rest []
    | '\x7b' :: rest =>
      let rest := rest.dropWhile isJsonWs
      match rest with
      | '\x7d' :: r => some (.dict [], r)
      | _ => jsonMembers fuel rest []
    | c :: _ =>
      if c = '-' || c.isDigit then jsonNumber cs else none
    | [] => none

/-- Parse the elements of a JSON array after the opening bracket,
accumulating in reverse. -/
def jsonElems : Nat → List Char → List PyVal → Option (PyVal × List Char)
  | 0, _, _ => none
  | fuel + 1, cs, acc =>
    match jsonValue fuel cs with
    | none => none
    | some (v, rest) =>
      match rest.dropWhile isJsonWs with
      | ',' :: r => jsonElems fuel r (v :: acc)
      | ']' :: r => some (.list (v :: acc).reverse, r)
      | _ => none

/-- Parse the members of a JSON object after the opening brace,
accumulating the entries; a repeated key keeps the later value at the
position of the first occurrence, as Python dict assignment does. -/
def jsonMembers : Nat → List Char → PyDict → Option (PyVal × List Char)
  | 0, _, _ => none
  | fuel + 1, cs, acc =>
    match cs.dropWhile isJsonWs with
    | '"' :: rest =>
      match jsonString (rest.length + 1) rest with
      | none => none
      | some (key, afterKey) =>
        match afterKey.dropWhile isJsonWs with
        | ':' :: afterColon =>
          match jsonValue fuel afterColon with
          | none => none
          | some (v, rest2) =>
            let acc := dictSet acc (String.mk key) v
            match rest2.dropWhile isJsonWs with
            | ',' :: r => jsonMembers fuel r acc
            | '\x7d' :: r => some (.dict acc, r)
            | _ => none
        | _ => none
    | _ => none

end

/-- Model of json.loads: parse one value and require only whitespace to
remain. -/
def json_loads (s : String) : Option PyVal :=
  match jsonValue (s.data.length + 1) s.data with
  | some (v, rest) => if (rest.dropWhile isJsonWs).isEmpty then some v else none
  | none => none

/-- Literal marker searched for in the raw error text. -/
def bodyMarker : String := "HTTP response body:"

/-- One element of a sequence handed to dict.update, read as a
key/value pair the way Python unpacks it: a two-element list whose
first item is hashable, a two-character string split into its
characters, or a two-entry mapping iterated by its keys; anything else
raises. -/
def pairOf : PyVal → Option (PyKey × PyVal)
  | .list [a, b] =>
    (match a with
     | .str s => some (PyKey.str s)
     | .int n => some (PyKey.int n)
     | .jnum lit => some (PyKey.jnum lit)
     | .bool bb => some (PyKey.bool bb)
     | .null => some PyKey.null
     | .list _ => none
     | .dict _ => none).map fun k => (k, b)
  | .str s =>
    match s.data with
    | [c1, c2] => some (.str (String.mk [c1]), .str (String.mk [c2]))
    | _ => none
  | .dict [(k1, _), (k2, _)] => some (k1, pyKeyVal k2)
  | _ => none

/-- Model of dict.update consuming a sequence of key/value pairs.
Assignments made before a failing element are kept, because dict.update
mutates the dictionary as it iterates; the flag reports whether the
whole call completed. -/
def updSeq (d : PyDict) : List PyVal → PyDict × Bool
  | [] => (d, true)
  | e :: rest =>
    match pairOf e with
    | some (k, v) => updSeq (dictSetK d k v) rest
    | none => (d, false)

/-- Model of Python dict.update applied to a decoded JSON value. A
mapping merges its entries; a list merges as a sequence of pairs; an
empty string iterates to nothing and succeeds; every other argument
raises at once, leaving the dictionary unchanged. -/
def pyUpdate (d : PyDict) : PyVal → PyDict × Bool
  | .dict m => (dictUpdate d m, true)
  | .list elems => updSeq d elems
  | .str s => (d, s.data.isEmpty)
  | _ => (d, false)

/-- Embedding of parse_k8s_api_error from app.py lines 22 to 41. The
regular-expression step fills status_code and reason; when the marker is
present, the element at index 1 of the Python split, that is the segment
between the first marker occurrence and the next one, is stripped and
decoded as JSON, and the decoded value is merged by dict.update. A
decode error, or an exception out of dict.update, lands in the except
branch, which stores the stripped segment under full_body on the
dictionary as mutated so far. -/
def parse_k8s_api_error (error_string : String) : PyDict :=
  let data : PyDict :=
    match reSearch error_string.data with
    | some (code, reas) => [(.str "status_code", .str code), (.str "reason", .str reas)]
    | none => []
  if inStr bodyMarker error_string then
    let tail := ((splitFirst bodyMarker.data error_string.data).2).getD []
    let json_part := String.mk (trimL (splitFirst bodyMarker.data tail).1)
    match json_loads json_part with
    | some v =>
      let p := pyUpdate data v
      if p.2 then p.1 else dictSet p.1 "full_body" (.str json_part)
    | none => dictSet data "full_body" (.str json_part)
  else data

/-! Data model of the Kubernetes objects read by diagnostics.py: the pod
status with its container statuses, and the events. Optional fields are
fields the API client reports as possibly None. -/

/-- A container waiting or terminated state carrying its reason. -/
structure StateInfo where
  reason : Option String

/-- The state field of a container status; at most one variant is set. -/
structure ContainerState where
  waiting : Option StateInfo
  terminated : Option StateInfo

/-- One entry of pod.status.container_statuses. -/
structure ContainerStatus where
  state : ContainerState
  last_state : Option ContainerState
  restart_count : Nat

/-- One control-plane event, reduced to the two fields the engine
renders. -/
structure EventRecord where
  reason : String
  message : String

/-- The pod status fields read by the engine. -/
structure PodStatus where
  phase : Option String
  container_statuses : Option (List ContainerStatus)

/-- The pod object returned by the fetch. -/
structure Pod where
  status : PodStatus

/-- Embedding of the loop at diagnostics.py lines 48 to 55: every
container that has a waiting or terminated state overwrites reason, and
every container with a last terminated state overwrites
last_termination_reason; a missing reason string overwrites with the
empty string. The pair holds (reason, last_termination_reason). -/
def statusStep (acc : String × String) (c : ContainerStatus) : String × String :=
  let reason :=
    match c.state.waiting with
    | some w => w.reason.getD ""
    | none =>
      match c.state.terminated with
      | some t => t.reason.getD ""
      | none => acc.1
  let ltr :=
    match c.last_state with
    | some ls =>
      match ls.terminated with
      | some t => t.reason.getD ""
      | none => acc.2
    | none => acc.2
  (reason, ltr)

/-- The loop over the container statuses, folding statusStep from the
initial pair of empty strings. -/
def statusFold (css : List ContainerStatus) : String × String :=
  css.foldl statusStep ("", "")

/-- The reason variable after the status loop. -/
def currentReason (css : List ContainerStatus) : String := (statusFold css).1

/-- The last_termination_reason variable after the status loop. -/
def lastTerminationReason (css : List ContainerStatus) : String := (statusFold css).2

/-- Embedding of diagnostics.py line 58: sum of the per-container
restart counts. -/
def totalRestartCount (css : List ContainerStatus) : Nat :=
  (css.map (·.restart_count)).sum

/-- Rendering of one event for matching, diagnostics.py line 26. -/
def eventText (e : EventRecord) : String := e.reason ++ ": " ++ e.message

/-- Events after the try block at lines 18 to 24: a fetch failure
degrades to the empty list. -/
def effEvents : Except Unit (List EventRecord) → List EventRecord
  | .ok es => es
  | .error _ => []

/-- Logs after the try block at lines 30 to 37: a fetch failure degrades
to the empty string. -/
def effLogs : Except Unit String → String
  | .ok l => l
  | .error _ => ""

/-! Report builders: the dict literals returned by diagnose_pod, one per
return site, with their exact strings. Adjacent Python string literals
are concatenated. -/

def notFoundReport (pod_name e : String) : PyDict :=
  [(.str "summary", .str ("Pod \x27" ++ pod_name ++ "\x27 could not be found in the cluster.")),
   (.str "likely_cause", .str "The pod name may be incorrect or it no longer exists in this namespace."),
   (.str "evidence", .str e),
   (.str "recommendation", .str "Double-check the pod name and selected namespace, then try again.")]

def imagePullReport (event_messages : List String) : PyDict :=
  [(.str "summary", .str "The pod is unable to download the container image."),
   (.str "likely_cause", .str "The specified image name or tag may not exist, or access to the registry is denied."),
   (.str "evidence", .list (event_messages.map .str)),
   (.str "recommendation", .str "Verify the image name and tag in your Deployment file. Also ensure the image exists and that Kubernetes has permission to pull it.")]

def schedulingReport (event_messages : List String) : PyDict :=
  [(.str "summary", .str "The pod could not be scheduled or mounted correctly."),
   (.str "likely_cause", .str "There are insufficient node resources or an issue with volume/PVC attachment."),
   (.str "evidence", .list (event_messages.map .str)),
   (.str "recommendation", .str "Check node CPU & memory availability, verify PersistentVolumeClaims, and ensure volume mounts are correctly configured.")]

def dnsReport (logs : String) : PyDict :=
  [(.str "summary", .str "The pod is unable to resolve DNS hostnames."),
   (.str "likely_cause", .str "Cluster DNS (CoreDNS) issue or incorrect service hostname being used."),
   (.str "evidence", .list ((lastN 15 (splitlines logs)).map .str)),
   (.str "recommendation", .str "Ensure CoreDNS pods are running and verify that the hostname or service name is correct. Try running nslookup inside the pod to confirm DNS resolution.")]

def permissionReport (logs : String) : PyDict :=
  [(.str "summary", .str "The application failed due to file permission restrictions."),
   (.str "likely_cause", .str "The container does not have sufficient permissions for required files or directories."),
   (.str "evidence", .list ((lastN 15 (splitlines logs)).map .str)),
   (.str "recommendation", .str "Adjust file permissions, container user settings, or volume access rights.")]

def timeoutReport (logs : String) : PyDict :=
  [(.str "summary", .str "The pod experienced network connectivity delays."),
   (.str "likely_cause", .str "The application could not reach another service or external endpoint."),
   (.str "evidence", .list ((lastN 15 (splitlines logs)).map .str)),
   (.str "recommendation", .str "Verify target service availability, network policies, and DNS configuration.")]

def oomReport (restart_count : Nat) (logs : String) : PyDict :=
  [(.str "summary", .str "The pod was terminated due to excessive memory usage."),
   (.str "likely_cause", .str "The application exceeded its assigned memory limit."),
   (.str "evidence", .dict [(.str "restart_count", .int restart_count),
                       (.str "logs", .list ((lastN 10 (splitlines logs)).map .str))]),
   (.str "recommendation", .str "Increase memory limits or optimize the application\x27s memory consumption.")]

def probeReport (probe_failures : List String) : PyDict :=
  [(.str "summary", .str "Health checks are failing for this pod."),
   (.str "likely_cause", .str "The pod is not responding properly to readiness or liveness probes."),
   (.str "evidence", .list (probe_failures.map .str)),
   (.str "recommendation", .str "Ensure your health endpoints (/health or /ready) return HTTP 200 consistently.")]

def scannerReport (logs : String) : PyDict :=
  [(.str "summary", .str "Non-critical external scan traffic detected."),
   (.str "likely_cause", .str "Automated internet scanners probing the exposed service."),
   (.str "evidence", .list ((lastN 10 (splitlines logs)).map .str)),
   (.str "recommendation", .str "This is normal behavior. No action is required.")]

def appErrorReport (logs : String) : PyDict :=
  [(.str "summary", .str "Application-level errors detected in logs."),
   (.str "likely_cause", .str "Internal code or configuration issue in the application."),
   (.str "evidence", .list ((lastN 15 (splitlines logs)).map .str)),
   (.str "recommendation", .str "Review detailed logs and fix application-level issues.")]

def crashLoopReport (pod_name : String) (restart_count : Nat)
    (backoff_events : List String) (logs : String) : PyDict :=
  [(.str "summary", .str ("Pod \x27" ++ pod_name ++ "\x27 is repeatedly crashing and restarting.")),
   (.str "likely_cause", .str "The container process is failing during startup, causing Kubernetes to restart it continuously."),
   (.str "evidence", .dict [(.str "restart_count", .int restart_count),
                       (.str "state", .str "CrashLoopBackOff"),
                       (.str "relevant_events", .list ((backoff_events.take 5).map .str)),
                       (.str "last_logs", .list ((lastN 10 (splitlines logs)).map .str))]),
   (.str "recommendation", .str "Inspect application startup behavior and verify configuration, environment variables, and required dependencies.")]

def pendingReport (event_messages : List String) : PyDict :=
  [(.str "summary", .str "The pod is waiting to be scheduled."),
   (.str "likely_cause", .str "Insufficient node resources or scheduling conflicts."),
   (.str "evidence", .list (event_messages.map .str)),
   (.str "recommendation", .str "Check node capacity and scaling configuration.")]

def runningReport (logs : String) : PyDict :=
  [(.str "summary", .str "The pod is healthy and running normally."),
   (.str "likely_cause", .str "No operational issues detected."),
   (.str "evidence", .list ((lastN 10 (splitlines logs)).map .str)),
   (.str "recommendation", .str "No intervention required.")]

def unknownReport (pod_name : String) (phase : Option String) (restart_count : Nat)
    (event_messages : List String) (logs : String) : PyDict :=
  [(.str "summary", .str ("No clear failure pattern found for pod \x27" ++ pod_name ++ "\x27.")),
   (.str "likely_cause", .str "The issue does not match any known diagnostic patterns."),
   (.str "evidence", .dict [(.str "phase", match phase with | some p => .str p | none => .null),
                       (.str "restart_count", .int restart_count),
                       (.str "events", .list (event_messages.map .str)),
                       (.str "logs", .list ((lastN 10 (splitlines logs)).map .str))]),
   (.str "recommendation", .str "Inspect logs and describe output manually for deeper analysis.")]

/-- Keyword list of the DNS rule, diagnostics.py lines 89 to 91. -/
def dnsKeywords : List String :=
  ["no such host", "temporary failure in name resolution", "nxdomain", "servfail"]

/-- Scanner-noise denylist, diagnostics.py lines 156 to 159. -/
def ignore_patterns : List String :=
  ["hnap1", "solr", "cgi-bin", "masscan", "nmap",
   "paloaltonetworks", "odin", "favicon.ico", "go-http-client"]

/-- Keyword list of the application-error rule, diagnostics.py
line 171. -/
def appErrorKeywords : List String := ["error", "exception", "fatal", "panic"]

/-- The rule chain of diagnostics.py lines 61 to 233: the sequence of
guarded early returns, over the locals computed by lines 17 to 58. -/
def ruleChain (pod_name : String) (event_messages : List String) (logs : String)
    (phase : Option String) (reason last_termination_reason : String)
    (restart_count : Nat) : PyDict :=
  let log_text := toLowerStr logs
  let probe_failures := event_messages.filter (fun e => inStr "probe failed" (toLowerStr e))
  if inStr "imagepullbackoff" (toLowerStr reason) || inStr "errimagepull" (toLowerStr reason) then
    imagePullReport event_messages
  else if event_messages.any (fun e => inStr "FailedScheduling" e || inStr "FailedMount" e) then
    schedulingReport event_messages
  else if dnsKeywords.any (fun k => inStr k log_text) then
    dnsReport logs
  else if inStr "permission denied" log_text then
    permissionReport logs
  else if inStr "timeout" log_text then
    timeoutReport logs
  else if inStr "oomkilled" (toLowerStr last_termination_reason) then
    oomReport restart_count logs
  else if !probe_failures.isEmpty then
    probeReport probe_failures
  else if ignore_patterns.any (fun p => inStr p log_text) then
    scannerReport logs
  else if appErrorKeywords.any (fun err => inStr err log_text) then
    appErrorReport logs
  else if inStr "crashloopbackoff" (toLowerStr reason) then
    crashLoopReport pod_name restart_count
      (event_messages.filter (fun e => inStr "back-off" (toLowerStr e) || inStr "crash" (toLowerStr e)))
      logs
  else if phase == some "Pending" then
    pendingReport event_messages
  else if phase == some "Running" then
    runningReport logs
  else
    unknownReport pod_name phase restart_count event_messages logs

/-- Embedding of diagnose_pod from diagnostics.py. The three effectful
fetches become three explicit results: the pod fetch either yields a pod
or raises an ApiException whose text is the error string, and the event
and log fetches either succeed or fail. Logs are strings, so the
isinstance guard of line 39 always takes the string branch. The locals
of lines 17 to 58 are computed here and fed to the rule chain. -/
def diagnose_pod (pod_name ns : String)
    (podR : Except String Pod)
    (eventsR : Except Unit (List EventRecord))
    (logsR : Except Unit String) : PyDict :=
  match podR with
  | .error e => notFoundReport pod_name e
  | .ok pod =>
    let events := effEvents eventsR
    let event_messages := events.map eventText
    let logs := effLogs logsR
    let phase := pod.status.phase
    let container_statuses := pod.status.container_statuses.getD []
    let reason := currentReason container_statuses
    let last_termination_reason := lastTerminationReason container_statuses
    let restart_count := totalRestartCount container_statuses
    ruleChain pod_name event_messages logs phase reason last_termination_reason restart_count

/-- The thirteen failure categories of the specification together with
the terminal fallback. -/
inductive Category where
  | NotFound
  | ImagePullFailure
  | SchedulingOrVolumeFailure
  | DnsFailure
  | PermissionFailure
  | NetworkTimeout
  | OutOfMemoryKill
  | ProbeFailure
  | ScannerTraffic
  | ApplicationError
  | CrashLoopBackOff
  | PodPending
  | PodRunningHealthy
  | Unknown
deriving DecidableEq

/-- The category of the rule of ruleChain that fires: the same guard
chain with each return site replaced by its category label. -/
def ruleCat (event_messages : List String) (logs : String)
    (phase : Option String) (reason last_termination_reason : String) : Category :=
  let log_text := toLowerStr logs
  let probe_failures := event_messages.filter (fun e => inStr "probe failed" (toLowerStr e))
  if inStr "imagepullbackoff" (toLowerStr reason) || inStr "errimagepull" (toLowerStr reason) then
    .ImagePullFailure
  else if event_messages.any (fun e => inStr "FailedScheduling" e || inStr "FailedMount" e) then
    .SchedulingOrVolumeFailure
  else if dnsKeywords.any (fun k => inStr k log_text) then
    .DnsFailure
  else if inStr "permission denied" log_text then
    .PermissionFailure
  else if inStr "timeout" log_text then
    .NetworkTimeout
  else if inStr "oomkilled" (toLowerStr last_termination_reason) then
    .OutOfMemoryKill
  else if !probe_failures.isEmpty then
    .ProbeFailure
  else if ignore_patterns.any (fun p => inStr p log_text) then
    .ScannerTraffic
  else if appErrorKeywords.any (fun err => inStr err log_text) then
    .ApplicationError
  else if inStr "crashloopbackoff" (toLowerStr reason) then
    .CrashLoopBackOff
  else if phase == some "Pending" then
    .PodPending
  else if phase == some "Running" then
    .PodRunningHealthy
  else
    .Unknown

/-- The category of the rule that fires for the full inputs. -/
def classify (pod_name ns : String)
    (podR : Except String Pod)
    (eventsR : Except Unit (List EventRecord))
    (logsR : Except Unit String) : Category :=
  match podR with
  | .error _ => .NotFound
  | .ok pod =>
    let event_messages := (effEvents eventsR).map eventText
    let logs := effLogs logsR
    let css := pod.status.container_statuses.getD []
    ruleCat event_messages logs pod.status.phase
      (currentReason css) (lastTerminationReason css)

/-- The report builder selected by a category, applied to the arguments
the rule chain would hand it; the NotFound case is unreachable through
the chain and maps to the empty dict. -/
def catReport (pod_name : String) (event_messages : List String) (logs : String)
    (phase : Option String) (restart_count : Nat) : Category → PyDict
  | .NotFound => []
  | .ImagePullFailure => imagePullReport event_messages
  | .SchedulingOrVolumeFailure => schedulingReport event_messages
  | .DnsFailure => dnsReport logs
  | .PermissionFailure => permissionReport logs
  | .NetworkTimeout => timeoutReport logs
  | .OutOfMemoryKill => oomReport restart_count logs
  | .ProbeFailure =>
      probeReport (event_messages.filter (fun e => inStr "probe failed" (toLowerStr e)))
  | .ScannerTraffic => scannerReport logs
  | .ApplicationError => appErrorReport logs
  | .CrashLoopBackOff =>
      crashLoopReport pod_name restart_count
        (event_messages.filter (fun e => inStr "back-off" (toLowerStr e) || inStr "crash" (toLowerStr e)))
        logs
  | .PodPending => pendingReport event_messages
  | .PodRunningHealthy => runningReport logs
  | .Unknown => unknownReport pod_name phase restart_count event_messages logs

/-! Rule table view of the chain, for stating that the rules form a
fixed total order in which the first matching rule wins. -/

/-- The data every rule predicate reads. -/
structure RuleCtx where
  reason : String
  last_termination_reason : String
  event_messages : List String
  log_text : String
  phase : Option String

/-- The rule context computed from a fetched pod and the event and log
results, exactly as the prologue of diagnose_pod computes it. -/
def mkRuleCtx (pod : Pod) (eventsR : Except Unit (List EventRecord))
    (logsR : Except Unit String) : RuleCtx :=
  let css := pod.status.container_statuses.getD []
  { reason := currentReason css
    last_termination_reason := lastTerminationReason css
    event_messages := (effEvents eventsR).map eventText
    log_text := toLowerStr (effLogs logsR)
    phase := pod.status.phase }

/-- The twelve rule predicates of the chain, in source order. -/
def rulePreds : List (RuleCtx → Bool) :=
  [fun c => inStr "imagepullbackoff" (toLowerStr c.reason) || inStr "errimagepull" (toLowerStr c.reason),
   fun c => c.event_messages.any (fun e => inStr "FailedScheduling" e || inStr "FailedMount" e),
   fun c => dnsKeywords.any (fun k => inStr k c.log_text),
   fun c => inStr "permission denied" c.log_text,
   fun c => inStr "timeout" c.log_text,
   fun c => inStr "oomkilled" (toLowerStr c.last_termination_reason),
   fun c => !(c.event_messages.filter (fun e => inStr "probe failed" (toLowerStr e))).isEmpty,
   fun c => ignore_patterns.any (fun p => inStr p c.log_text),
   fun c => appErrorKeywords.any (fun err => inStr err c.log_text),
   fun c => inStr "crashloopbackoff" (toLowerStr c.reason),
   fun c => c.phase == some "Pending",
   fun c => c.phase == some "Running"]

/-- The categories of the twelve rules, in the same order. -/
def ruleCategories : List Category :=
  [.ImagePullFailure, .SchedulingOrVolumeFailure, .DnsFailure, .PermissionFailure,
   .NetworkTimeout, .OutOfMemoryKill, .ProbeFailure, .ScannerTraffic,
   .ApplicationError, .CrashLoopBackOff, .PodPending, .PodRunningHealthy]

/-- Index of the first predicate in the list that holds; the length of
the list when none does. -/
def firstMatchIdx {α : Type} : List (α → Bool) → α → Nat
  | [], _ => 0
  | p :: ps, x => if p x then 0 else firstMatchIdx ps x + 1

/-! Evidence renderer, app.py lines 266 to 315. Every streamlit emission
becomes one abstract section; the single-line markdown emissions that
interpolate a value keep the value itself, so the model does not depend
on the exact text formatting of f-strings. -/

/-- Repr of a dictionary key. -/
def pyKeyRepr : PyKey → String
  | .str s => "\x27" ++ s ++ "\x27"
  | .int n => toString n
  | .jnum lit => lit
  | .bool b => if b then "True" else "False"
  | .null => "None"

mutual

/-- Python repr of a dynamic value; string escaping inside repr is kept
as plain quoting, which is exact for the quote-free strings that occur
here. -/
def pyRepr : PyVal → String
  | .str s => "\x27" ++ s ++ "\x27"
  | .int n => toString n
  | .jnum lit => lit
  | .bool b => if b then "True" else "False"
  | .null => "None"
  | .list l => "[" ++ String.intercalate ", " (pyReprList l) ++ "]"
  | .dict m => "\x7b" ++ String.intercalate ", " (pyReprEntries m) ++ "\x7d"

/-- Reprs of the items of a list. -/
def pyReprList : List PyVal → List String
  | [] => []
  | v :: rest => pyRepr v :: pyReprList rest

/-- Reprs of the entries of a dict, as repr of the key, a colon, and
repr of the value. -/
def pyReprEntries : List (PyKey × PyVal) → List String
  | [] => []
  | (k, v) :: rest =>
    (pyKeyRepr k ++ ": " ++ pyRepr v) :: pyReprEntries rest

end

/-- Python str of a dynamic value: identity on strings, repr-style on
containers. -/
def pyStr : PyVal → String
  | .str s => s
  | .int n => toString n
  | .jnum lit => lit
  | .bool b => if b then "True" else "False"
  | .null => "None"
  | .list l => "[" ++ String.intercalate ", " (pyReprList l) ++ "]"
  | .dict m => "\x7b" ++ String.intercalate ", " (pyReprEntries m) ++ "\x7d"

/-- Model of Python str.title applied after replacing underscores with
spaces, app.py lines 281 and 301: a letter is upper-cased when the
previous character is not a letter and lower-cased otherwise. -/
def titleAux : Bool → List Char → List Char
  | _, [] => []
  | prevCased, c :: rest =>
    if c.isAlpha then
      (if prevCased then c.toLower else c.toUpper) :: titleAux true rest
    else
      c :: titleAux false rest

/-- Display label of a key: underscores to spaces, then title case. -/
def keyLabel (k : String) : String :=
  String.mk (titleAux false (k.data.map fun c => if c = '_' then ' ' else c))

/-- One rendered display section. Constructors that carry a PyVal stand
for an emission whose text interpolates that value. -/
inductive RSec where
  | md (text : String)
  | mdLabel (label : String)
  | mdLine (label : String) (value : PyVal)
  | bullet (item : PyVal)
  | code (text : String)
  | codeJson (value : PyVal)
  | write (text : String)

/-- Keys suppressed when rendering a parsed API error, app.py
line 276. -/
def excludedKeys : List String := ["kind", "apiVersion", "metadata", "code"]

/-- Sections for one entry of the parsed API-error mapping, app.py lines
278 to 288: excluded keys are skipped, a non-empty mapping value becomes
a label plus a JSON code block, an empty mapping value emits nothing,
and any other value becomes a single labelled line. A key that is not a
string makes key.replace raise in the source, ending the page; it is
rendered here as no sections for the entry. -/
def renderParsedEntry (k : PyKey) (v : PyVal) : List RSec :=
  match k with
  | .str ks =>
    if excludedKeys.contains ks then []
    else
      match v with
      | .dict m => if m.isEmpty then [] else [.mdLabel (keyLabel ks), .codeJson (.dict m)]
      | _ => [.mdLine (keyLabel ks) v]
  | _ => []

/-- Sections for one entry of a dict evidence value, app.py lines 298
to 308: the last_logs entry is skipped here, a list value becomes a
label plus one bullet per item, and any other value becomes a single
labelled line. The evidence mappings the engine builds carry only
string keys; a non-string key would make key.replace raise in the
source and is rendered here as no sections for the entry. -/
def renderDictEntry (k : PyKey) (v : PyVal) : List RSec :=
  match k with
  | .str ks =>
    if ks = "last_logs" then []
    else
      match v with
      | .list l => .mdLabel (keyLabel ks) :: l.map .bullet
      | _ => [.mdLine (keyLabel ks) v]
  | _ => []

/-- The separate expander of app.py lines 313 to 315 showing last_logs
joined by newlines; a non-list value there would raise in Python and is
rendered as nothing. -/
def lastLogsSection (m : PyDict) : List RSec :=
  match dictLookup m "last_logs" with
  | some (.list l) => [.md "Latest Logs", .code (String.intercalate "\n" (l.map pyStr))]
  | some _ => []
  | none => []

/-- Embedding of the evidence rendering of app.py lines 266 to 315. -/
def renderEvidence (evidence : PyVal) : List RSec :=
  match evidence with
  | .str s =>
    if inStr bodyMarker s then
      RSec.md "### Kubernetes API Error" ::
        ((parse_k8s_api_error s).map fun kv => renderParsedEntry kv.1 kv.2).flatten
    else
      [RSec.md "### Pod Description Analysis", RSec.code s]
  | .list l =>
    [RSec.md "**Logs / Events:**", RSec.code (String.intercalate "\n" (l.map pyStr))]
  | .dict m =>
    ((m.map fun kv => renderDictEntry kv.1 kv.2).flatten) ++ lastLogsSection m
  | _ => [RSec.write "No evidence available."]

/-! Specification-side definitions, used to compare the code with the
words of the specification. -/

/-- Reason contributed by one container: the waiting reason when a
waiting state is present, else the terminated reason when a terminated
state is present, else the empty string; a missing reason string reads
as empty. -/
def containerReason (c : ContainerStatus) : String :=
  match c.state.waiting with
  | some w => w.reason.getD ""
  | none =>
    match c.state.terminated with
    | some t => t.reason.getD ""
    | none => ""

/-- Last terminated reason contributed by one container, empty when
absent. -/
def containerLastTermReason (c : ContainerStatus) : String :=
  match c.last_state with
  | some ls =>
    match ls.terminated with
    | some t => t.reason.getD ""
    | none => ""
  | none => ""

/-- Modelled from the spec: current_reason as the first non-empty
waiting or terminated reason across containers, in container order. -/
def currentReasonSpecFirst (css : List ContainerStatus) : String :=
  ((css.map containerReason).find? (fun s => s != "")).getD ""

/-- Modelled from the spec: last_termination_reason as the first
non-empty last terminated reason across containers. -/
def lastTermReasonSpecFirst (css : List ContainerStatus) : String :=
  ((css.map containerLastTermReason).find? (fun s => s != "")).getD ""

/-- True when the container has a waiting or a terminated state, the
condition under which the status loop overwrites reason. -/
def hasStateReason (c : ContainerStatus) : Bool :=
  c.state.waiting.isSome || c.state.terminated.isSome

/-- True when the container has a last terminated state, the condition
under which the status loop overwrites last_termination_reason. -/
def hasLastTerm (c : ContainerStatus) : Bool :=
  match c.last_state with
  | some ls => ls.terminated.isSome
  | none => false

/-- Description of what the loop actually computes: the reason of the
last container, in container order, that has a waiting or terminated
state. -/
def currentReasonLast (css : List ContainerStatus) : String :=
  match css.reverse.find? hasStateReason with
  | some c => containerReason c
  | none => ""

/-- Description of what the loop actually computes for the last
termination reason. -/
def lastTermReasonLast (css : List ContainerStatus) : String :=
  match css.reverse.find? hasLastTerm with
  | some c => containerLastTermReason c
  | none => ""

/-- Modelled from the spec: the trailing text of an error string after
the first occurrence of the body marker, trimmed. -/
def specTrailing (s : String) : String :=
  String.mk (trimL (((splitFirst bodyMarker.data s.data).2).getD []))

/-- True exactly on string values. -/
def isStrV : PyVal → Bool
  | .str _ => true
  | _ => false

/-- True on the values the engine actually puts inside a structured
evidence mapping: strings, integer counters, the possibly missing
phase, and lists of strings. This is wider than the Structured shape of
the specification data model, which admits only strings and sequences
of strings. -/
def scalarOrStrList : PyVal → Bool
  | .str _ => true
  | .int _ => true
  | .null => true
  | .list l => l.all isStrV
  | _ => false

/-- The three evidence shapes the code produces: text, a list of
strings, or a mapping whose values are scalars or lists of strings. -/
def evidenceShape : PyVal → Bool
  | .str _ => true
  | .list l => l.all isStrV
  | .dict m => m.all fun kv => scalarOrStrList kv.2
  | _ => false

/-- Modelled from the spec: a value the Structured shape of the data
model in section 3 permits, a string or a sequence of strings. -/
def strictValue : PyVal → Bool
  | .str _ => true
  | .list l => l.all isStrV
  | _ => false

/-- Modelled from the spec: the closed Evidence sum type of section 3,
whose Structured mappings carry only strings or sequences of
strings. -/
def evidenceShapeSpec : PyVal → Bool
  | .str _ => true
  | .list l => l.all isStrV
  | .dict m => m.all fun kv => strictValue kv.2
  | _ => false

/-- The keys of the report data model, in the order the dict literals of
diagnose_pod write them. -/
def reportKeys : List PyKey :=
  [.str "summary", .str "likely_cause", .str "evidence", .str "recommendation"]

/-- A section that displays an empty mapping: an inline line whose value
is an empty mapping, a bullet holding an empty mapping, or a JSON code
block of an empty mapping. -/
def isEmptyMapSection : RSec → Bool
  | .mdLine _ (.dict []) => true
  | .bullet (.dict []) => true
  | .codeJson (.dict []) => true
  | _ => false

/-- True when no section of the list displays an empty mapping. -/
def noEmptyMapSections (l : List RSec) : Bool :=
  l.all fun s => !isEmptyMapSection s

/-- True exactly on the empty mapping value. -/
def isEmptyDict : PyVal → Bool
  | .dict [] => true
  | _ => false

/-! Concrete example inputs used by the theorems below. -/

/-- A pod whose single container waits in CrashLoopBackOff. -/
def podCrashEx : Pod :=
  { status :=
    { phase := some "Running"
      container_statuses := some
        [{ state := { waiting := some { reason := some "CrashLoopBackOff" }, terminated := none }
           last_state := none
           restart_count := 3 }] } }

/-- A pod whose single container waits in ImagePullBackOff. -/
def podImagePullEx : Pod :=
  { status :=
    { phase := some "Pending"
      container_statuses := some
        [{ state := { waiting := some { reason := some "ImagePullBackOff" }, terminated := none }
           last_state := none
           restart_count := 0 }] } }

/-- A pod whose single container was last terminated by the memory
killer, with two restarts. -/
def podOomEx : Pod :=
  { status :=
    { phase := some "Running"
      container_statuses := some
        [{ state := { waiting := none, terminated := none }
           last_state := some { waiting := none, terminated := some { reason := some "OOMKilled" } }
           restart_count := 2 }] } }

/-- Two containers: the first waits with reason ImagePullBackOff, the
second waits with a missing reason string. -/
def cssOverwriteEx : List ContainerStatus :=
  [{ state := { waiting := some { reason := some "ImagePullBackOff" }, terminated := none }
     last_state := none
     restart_count := 1 },
   { state := { waiting := some { reason := none }, terminated := none }
     last_state := none
     restart_count := 2 }]

/-- Error text with a JSON body. -/
def exBody1 : String := "... HTTP response body: \x7b\"message\":\"x\"\x7d"

/-- Error text whose body is not decodable. -/
def exBody2 : String := "... HTTP response body: not-json"

/-- Error text with both the status pattern and a JSON body that
overwrites the reason key. -/
def exBody3 : String := "(404) Reason: NotFound HTTP response body: \x7b\"reason\":\"Gone\"\x7d"

/-- Error text in which the marker occurs twice. -/
def exBody4 : String := "HTTP response body: not-json HTTP response body: tail"

/-- Error text whose JSON body holds an empty nested mapping. -/
def exBody5 : String := "(404) Reason: NotFound\nHTTP response body: \x7b\"message\":\"x\",\"details\":\x7b\x7d\x7d"

/-- Error text whose body decodes to a sequence of key/value pairs,
which dict.update merges. -/
def exBody6 : String := "HTTP response body: [[\"a\",\"b\"]]"

/-- Error text whose JSON body carries the Python NaN extension. -/
def exBody7 : String := "HTTP response body: \x7b\"a\": NaN\x7d"

/-- Error text whose body merges one pair and then fails, so the
partial merge is kept and full_body is added. -/
def exBody8 : String := "HTTP response body: [[\"a\",\"b\"], 5]"

/-- A one-entry parsed mapping whose single value is an empty mapping. -/
def exParsedEx : PyDict := [(.str "details", .dict [])]

/-! Theorems. -/

/-- C4: for every identity whose pod fetch reports a not-found
condition, diagnose short-circuits: it returns the not-found report
carrying the raw fetch error as text evidence, independent of the event
and log inputs, so no other classification rule is evaluated. -/
theorem C4_notfound_short_circuit (pod_name ns e : String)
    (eventsR : Except Unit (List EventRecord)) (logsR : Except Unit String) :
    diagnose_pod pod_name ns (.error e) eventsR logsR = notFoundReport pod_name e ∧
    dictLookup (diagnose_pod pod_name ns (.error e) eventsR logsR) "evidence"
      = some (.str e) ∧
    classify pod_name ns (.error e) eventsR logsR = .NotFound :=
  ⟨rfl, rfl, rfl⟩

/-- C10: the pod-fetch error handler does not distinguish the not-found
condition from other API errors: every fetch exception, whatever its
status, yields the same could-not-be-found summary with the stringified
exception as text evidence; in particular a 403 Forbidden error does. -/
theorem C10_any_api_error_notfound (pod_name ns e : String)
    (eventsR : Except Unit (List EventRecord)) (logsR : Except Unit String) :
    dictLookup (diagnose_pod pod_name ns (.error e) eventsR logsR) "summary"
      = some (.str ("Pod \x27" ++ pod_name ++ "\x27 could not be found in the cluster.")) ∧
    dictLookup (diagnose_pod pod_name ns (.error e) eventsR logsR) "evidence"
      = some (.str e) ∧
    dictLookup (diagnose_pod "web" "default"
        (.error "(403) Reason: Forbidden") (.ok []) (.ok "")) "summary"
      = some (.str "Pod \x27web\x27 could not be found in the cluster.") :=
  ⟨rfl, rfl, rfl⟩

/-- C9: diagnose is a deterministic pure function of its inputs: two
calls with identical snapshot, event, and log inputs produce identical
reports. -/
theorem C9_deterministic (pod_name ns : String)
    (podR podR2 : Except String Pod)
    (eventsR eventsR2 : Except Unit (List EventRecord))
    (logsR logsR2 : Except Unit String)
    (h1 : podR = podR2) (h2 : eventsR = eventsR2) (h3 : logsR = logsR2) :
    diagnose_pod pod_name ns podR eventsR logsR
      = diagnose_pod pod_name ns podR2 eventsR2 logsR2 := by
  subst h1; subst h2; subst h3; rfl

/-- Witness for C9 at a concrete input. -/
theorem C9_deterministic_witness :
    diagnose_pod "web" "default" (.ok podCrashEx) (.ok []) (.ok "fatal: boom")
      = diagnose_pod "web" "default" (.ok podCrashEx) (.ok []) (.ok "fatal: boom") :=
  C9_deterministic "web" "default" _ _ _ _ _ _ rfl rfl rfl

/-- Mapping string constructors over strings yields only string
values. -/
lemma allStr_map (xs : List String) : (xs.map PyVal.str).all isStrV = true := by
  induction xs with
  | nil => rfl
  | cons x xs ih => simp [isStrV, ih]

/-- An if-then-else is distinct from a value both branches are distinct
from. -/
lemma ite_ne {α : Type} (c : Prop) [Decidable c] {a b x : α}
    (ha : a ≠ x) (hb : b ≠ x) : (if c then a else b) ≠ x := by
  by_cases h : c <;> simp [h, ha, hb]

/-- A function application distributes over an if-then-else when both
branches agree with the images. -/
lemma ite_map {α β : Type} (c : Prop) [Decidable c] {f : α → β} {a b : α} {A B : β}
    (h1 : A = f a) (h2 : B = f b) : (if c then A else B) = f (if c then a else b) := by
  by_cases h : c
  · simpa [h] using h1
  · simpa [h] using h2

/-- The rule chain returns exactly the report of the category of the
first matching rule. -/
lemma ruleChain_eq_catReport (pn : String) (em : List String) (lg : String)
    (ph : Option String) (rsn ltr : String) (rc : Nat) :
    ruleChain pn em lg ph rsn ltr rc
      = catReport pn em lg ph rc (ruleCat em lg ph rsn ltr) := by
  dsimp only [ruleChain, ruleCat]
  repeat' apply ite_map
  all_goals rfl

/-- The chain of a fetched pod never yields the NotFound category. -/
lemma ruleCat_ne_notFound (em : List String) (lg : String)
    (ph : Option String) (rsn ltr : String) :
    ruleCat em lg ph rsn ltr ≠ .NotFound := by
  dsimp only [ruleCat]
  repeat' apply ite_ne
  all_goals decide

/-- The report of every category other than NotFound carries exactly
the four report keys. -/
lemma catReport_keys (pn : String) (em : List String) (lg : String)
    (ph : Option String) (rc : Nat) (c : Category) (h : c ≠ .NotFound) :
    (catReport pn em lg ph rc c).map Prod.fst = reportKeys := by
  cases c
  case NotFound => exact absurd rfl h
  all_goals rfl

/-- Every report of a fetched pod carries exactly the four report
keys, whichever rule fires. -/
lemma report_keys_of_ok (pod_name ns : String) (pod : Pod)
    (eventsR : Except Unit (List EventRecord)) (logsR : Except Unit String) :
    (diagnose_pod pod_name ns (.ok pod) eventsR logsR).map Prod.fst = reportKeys := by
  rw [show diagnose_pod pod_name ns (.ok pod) eventsR logsR
        = ruleChain pod_name ((effEvents eventsR).map eventText) (effLogs logsR)
            pod.status.phase
            (currentReason (pod.status.container_statuses.getD []))
            (lastTerminationReason (pod.status.container_statuses.getD []))
            (totalRestartCount (pod.status.container_statuses.getD [])) from rfl,
      ruleChain_eq_catReport]
  exact catReport_keys _ _ _ _ _ _ (ruleCat_ne_notFound _ _ _ _ _)

/-- The report of every category other than NotFound carries an
evidence value of one of the three closed shapes. -/
lemma catReport_evidence_shape (pn : String) (em : List String) (lg : String)
    (ph : Option String) (rc : Nat) (c : Category) (h : c ≠ .NotFound) :
    ∃ ev, dictLookup (catReport pn em lg ph rc c) "evidence" = some ev ∧
      evidenceShape ev = true := by
  cases c
  case NotFound => exact absurd rfl h
  all_goals
    exact ⟨_, rfl, by
      cases ph <;>
        simp [evidenceShape, scalarOrStrList, isStrV, allStr_map] <;>
        (intro x hx
         rcases List.mem_map.mp (List.mem_of_mem_take hx) with ⟨y, hy, hxy⟩
         subst hxy
         rfl)⟩

/-- C2 counterexample: at a concrete input the report carries no
category key, its keys being exactly summary, likely_cause, evidence
and recommendation; and at a concrete memory-kill input the structured
evidence maps restart_count to an integer, a value outside the
specification Structured shape of strings and sequences of strings. -/
theorem C2_no_category_field :
    dictLookup (diagnose_pod "web" "default" (.error "(404) Reason: NotFound")
        (.ok []) (.ok "")) "category" = none ∧
    (diagnose_pod "web" "default" (.error "(404) Reason: NotFound")
        (.ok []) (.ok "")).map Prod.fst
      = [.str "summary", .str "likely_cause", .str "evidence", .str "recommendation"] ∧
    dictLookup (diagnose_pod "web" "default" (.ok podOomEx) (.ok []) (.ok "all good"))
        "evidence"
      = some (.dict [(.str "restart_count", .int 2),
                     (.str "logs", .list [.str "all good"])]) ∧
    evidenceShapeSpec (.dict [(.str "restart_count", .int 2),
                              (.str "logs", .list [.str "all good"])]) = false :=
  ⟨rfl, rfl, rfl, rfl⟩

/-- C2 amended: every report returned by diagnose contains exactly the
fields summary, likely_cause, evidence and recommendation, with no
category field, and its evidence value is text, a list of strings, or a
mapping whose values are strings, integer counters, a possibly null
phase, or lists of strings; this mapping shape is wider than the
Structured shape of the specification data model, which the integer
restart_count and null phase fall outside of. -/
theorem C2_report_fields_and_evidence_shape (pod_name ns : String)
    (podR : Except String Pod)
    (eventsR : Except Unit (List EventRecord)) (logsR : Except Unit String) :
    (diagnose_pod pod_name ns podR eventsR logsR).map Prod.fst = reportKeys ∧
    ∃ ev, dictLookup (diagnose_pod pod_name ns podR eventsR logsR) "evidence" = some ev ∧
      evidenceShape ev = true := by
  cases podR with
  | error e => exact ⟨rfl, ⟨.str e, rfl, rfl⟩⟩
  | ok pod =>
    refine ⟨report_keys_of_ok pod_name ns pod eventsR logsR, ?_⟩
    rw [show diagnose_pod pod_name ns (.ok pod) eventsR logsR
          = ruleChain pod_name ((effEvents eventsR).map eventText) (effLogs logsR)
              pod.status.phase
              (currentReason (pod.status.container_statuses.getD []))
              (lastTerminationReason (pod.status.container_statuses.getD []))
              (totalRestartCount (pod.status.container_statuses.getD [])) from rfl,
        ruleChain_eq_catReport]
    exact catReport_evidence_shape _ _ _ _ _ _ (ruleCat_ne_notFound _ _ _ _ _)

/-- The category chain agrees with the first-match evaluation of the
rule table: the category returned is the one at the index of the first
predicate that holds, with Unknown as the fallback. -/
lemma ruleCat_eq_firstMatch (em : List String) (lg : String)
    (ph : Option String) (rsn ltr : String) :
    ruleCat em lg ph rsn ltr
      = ruleCategories.getD (firstMatchIdx rulePreds ⟨rsn, ltr, em, toLowerStr lg, ph⟩) .Unknown := by
  dsimp only [ruleCat, rulePreds, ruleCategories, firstMatchIdx]
  cases inStr "imagepullbackoff" (toLowerStr rsn) || inStr "errimagepull" (toLowerStr rsn) with
  | true => rfl
  | false =>
  cases em.any (fun e => inStr "FailedScheduling" e || inStr "FailedMount" e) with
  | true => rfl
  | false =>
  cases dnsKeywords.any (fun k => inStr k (toLowerStr lg)) with
  | true => rfl
  | false =>
  cases inStr "permission denied" (toLowerStr lg) with
  | true => rfl
  | false =>
  cases inStr "timeout" (toLowerStr lg) with
  | true => rfl
  | false =>
  cases inStr "oomkilled" (toLowerStr ltr) with
  | true => rfl
  | false =>
  cases (em.filter (fun e => inStr "probe failed" (toLowerStr e))).isEmpty with
  | false => rfl
  | true =>
  cases ignore_patterns.any (fun p => inStr p (toLowerStr lg)) with
  | true => rfl
  | false =>
  cases appErrorKeywords.any (fun err => inStr err (toLowerStr lg)) with
  | true => rfl
  | false =>
  cases inStr "crashloopbackoff" (toLowerStr rsn) with
  | true => rfl
  | false =>
  cases ph == some "Pending" with
  | true => rfl
  | false =>
  cases ph == some "Running" with
  | true => rfl
  | false => rfl

/-- When the image-pull guard holds the chain returns the image-pull
report at once. -/
lemma ruleChain_imagePull (pn : String) (em : List String) (lg : String)
    (ph : Option String) (rsn ltr : String) (rc : Nat)
    (h : (inStr "imagepullbackoff" (toLowerStr rsn) || inStr "errimagepull" (toLowerStr rsn)) = true) :
    ruleChain pn em lg ph rsn ltr rc = imagePullReport em := by
  dsimp only [ruleChain]
  exact if_pos h

/-- When the image-pull guard holds the category is ImagePullFailure. -/
lemma ruleCat_imagePull (em : List String) (lg : String)
    (ph : Option String) (rsn ltr : String)
    (h : (inStr "imagepullbackoff" (toLowerStr rsn) || inStr "errimagepull" (toLowerStr rsn)) = true) :
    ruleCat em lg ph rsn ltr = .ImagePullFailure := by
  dsimp only [ruleCat]
  exact if_pos h

/-- When the logs contain the word fatal, the application-error guard
holds before the crash-loop rule is reached, so the category is never
CrashLoopBackOff. -/
lemma ruleCat_not_crash_of_fatal (em : List String) (lg : String)
    (ph : Option String) (rsn ltr : String)
    (hfatal : inStr "fatal" (toLowerStr lg) = true) :
    ruleCat em lg ph rsn ltr ≠ .CrashLoopBackOff := by
  have happ : (appErrorKeywords.any fun err => inStr err (toLowerStr lg)) = true := by
    simp [appErrorKeywords, hfatal]
  dsimp only [ruleCat]
  cases inStr "imagepullbackoff" (toLowerStr rsn) || inStr "errimagepull" (toLowerStr rsn) with
  | true => exact fun h => Category.noConfusion h
  | false =>
  cases em.any (fun e => inStr "FailedScheduling" e || inStr "FailedMount" e) with
  | true => exact fun h => Category.noConfusion h
  | false =>
  cases dnsKeywords.any (fun k => inStr k (toLowerStr lg)) with
  | true => exact fun h => Category.noConfusion h
  | false =>
  cases inStr "permission denied" (toLowerStr lg) with
  | true => exact fun h => Category.noConfusion h
  | false =>
  cases inStr "timeout" (toLowerStr lg) with
  | true => exact fun h => Category.noConfusion h
  | false =>
  cases inStr "oomkilled" (toLowerStr ltr) with
  | true => exact fun h => Category.noConfusion h
  | false =>
  cases (em.filter (fun e => inStr "probe failed" (toLowerStr e))).isEmpty with
  | false => exact fun h => Category.noConfusion h
  | true =>
  cases ignore_patterns.any (fun p => inStr p (toLowerStr lg)) with
  | true => exact fun h => Category.noConfusion h
  | false =>
  rw [if_pos happ]
  exact fun h => Category.noConfusion h

/-- C1: the classification rules are evaluated in the fixed priority
order and the first matching rule wins: for every fetched pod the
category is the table entry at the first matching index and the report
is the one built by that category; whenever the
image-pull guard holds the image-pull report is returned and the
category is ImagePullFailure no matter which later predicates also
hold; a current reason of CrashLoopBackOff together with logs containing
fatal is never classified CrashLoopBackOff, and the concrete such
snapshot is classified ApplicationError. -/
theorem C1_rule_priority :
    (∀ (pod_name ns : String) (pod : Pod)
        (eventsR : Except Unit (List EventRecord)) (logsR : Except Unit String),
        classify pod_name ns (.ok pod) eventsR logsR
          = ruleCategories.getD
              (firstMatchIdx rulePreds
                ⟨currentReason (pod.status.container_statuses.getD []),
                 lastTerminationReason (pod.status.container_statuses.getD []),
                 (effEvents eventsR).map eventText,
                 toLowerStr (effLogs logsR),
                 pod.status.phase⟩) .Unknown) ∧
    (∀ (pod_name ns : String) (pod : Pod)
        (eventsR : Except Unit (List EventRecord)) (logsR : Except Unit String),
        diagnose_pod pod_name ns (.ok pod) eventsR logsR
          = catReport pod_name ((effEvents eventsR).map eventText) (effLogs logsR)
              pod.status.phase
              (totalRestartCount (pod.status.container_statuses.getD []))
              (classify pod_name ns (.ok pod) eventsR logsR)) ∧
    (∀ (pod_name ns : String) (pod : Pod)
        (eventsR : Except Unit (List EventRecord)) (logsR : Except Unit String),
        (inStr "imagepullbackoff"
            (toLowerStr (currentReason (pod.status.container_statuses.getD [])))
          || inStr "errimagepull"
            (toLowerStr (currentReason (pod.status.container_statuses.getD [])))) = true →
        diagnose_pod pod_name ns (.ok pod) eventsR logsR
            = imagePullReport ((effEvents eventsR).map eventText) ∧
        classify pod_name ns (.ok pod) eventsR logsR = .ImagePullFailure) ∧
    (∀ (pod_name ns : String) (pod : Pod)
        (eventsR : Except Unit (List EventRecord)) (logsR : Except Unit String),
        inStr "crashloopbackoff"
          (toLowerStr (currentReason (pod.status.container_statuses.getD []))) = true →
        inStr "fatal" (toLowerStr (effLogs logsR)) = true →
        classify pod_name ns (.ok pod) eventsR logsR ≠ .CrashLoopBackOff) ∧
    currentReason (podCrashEx.status.container_statuses.getD []) = "CrashLoopBackOff" ∧
    classify "web" "default" (.ok podCrashEx) (.ok []) (.ok "fatal: boom")
      = .ApplicationError := by
  refine ⟨?_, ?_, ?_, ?_, by decide, by decide⟩
  · intro pod_name ns pod eventsR logsR
    exact ruleCat_eq_firstMatch _ _ _ _ _
  · intro pod_name ns pod eventsR logsR
    exact ruleChain_eq_catReport _ _ _ _ _ _ _
  · intro pod_name ns pod eventsR logsR h
    exact ⟨ruleChain_imagePull _ _ _ _ _ _ _ h, ruleCat_imagePull _ _ _ _ _ h⟩
  · intro pod_name ns pod eventsR logsR hcrash hfatal
    exact ruleCat_not_crash_of_fatal _ _ _ _ _ hfatal

/-- Witness for C1: the image-pull priority and the crash-with-fatal
exclusion at concrete inputs. -/
theorem C1_rule_priority_witness :
    (diagnose_pod "web" "default" (.ok podImagePullEx) (.ok []) (.ok "")
        = imagePullReport ((effEvents (Except.ok ([] : List EventRecord))).map eventText) ∧
     classify "web" "default" (.ok podImagePullEx) (.ok []) (.ok "") = .ImagePullFailure) ∧
    classify "web" "default" (.ok podCrashEx) (.ok []) (.ok "fatal: boom")
      ≠ .CrashLoopBackOff :=
  ⟨C1_rule_priority.2.2.1 "web" "default" podImagePullEx (.ok []) (.ok "") (by rfl),
   C1_rule_priority.2.2.2.1 "web" "default" podCrashEx (.ok []) (.ok "fatal: boom")
     (by rfl) (by rfl)⟩

/-- The status loop leaves in each component the contribution of the
last container that overwrites it, or the accumulator when none
does. -/
lemma statusFold_gen (css : List ContainerStatus) (acc : String × String) :
    css.foldl statusStep acc
      = ((match css.reverse.find? hasStateReason with
          | some c => containerReason c
          | none => acc.1),
         (match css.reverse.find? hasLastTerm with
          | some c => containerLastTermReason c
          | none => acc.2)) := by
  induction css generalizing acc with
  | nil => rfl
  | cons c rest ih =>
    rw [List.foldl_cons, ih, List.reverse_cons, List.find?_append, List.find?_append]
    rcases h1 : rest.reverse.find? hasStateReason with _ | c1 <;>
      rcases h2 : rest.reverse.find? hasLastTerm with _ | c2 <;>
      rcases hl : c.last_state with _ | ⟨lsw, lst⟩ <;>
      (try cases lst) <;>
      cases hw : c.state.waiting <;>
      cases ht : c.state.terminated <;>
      simp [statusStep, containerReason, containerLastTermReason,
        hasStateReason, hasLastTerm, hl, hw, ht, List.find?, Option.or]

/-- C3 counterexample: on two containers where the first waits with
reason ImagePullBackOff and the second waits with a missing reason, the
loop computes the empty string, not the first non-empty reason. -/
theorem C3_not_first_nonempty :
    currentReason cssOverwriteEx = "" ∧
    currentReasonSpecFirst cssOverwriteEx = "ImagePullBackOff" ∧
    ("" : String) ≠ "ImagePullBackOff" :=
  ⟨rfl, rfl, by decide⟩

/-- C3 amended: current_reason is the waiting or terminated reason of
the last container, in container order, that has a waiting or
terminated state, a missing reason string reading as empty;
last_termination_reason is likewise the last terminated reason of the
last container that has one; total_restart_count is the sum of the
per-container restart counts. -/
theorem C3_derived_fields (css : List ContainerStatus) :
    currentReason css = currentReasonLast css ∧
    lastTerminationReason css = lastTermReasonLast css ∧
    totalRestartCount css = (css.map (fun c => c.restart_count)).sum := by
  refine ⟨?_, ?_, rfl⟩
  · show (statusFold css).1 = _
    rw [statusFold, statusFold_gen]
    rfl
  · show (statusFold css).2 = _
    rw [statusFold, statusFold_gen]
    rfl

/-- C6: the error payload parser extracts status_code and reason via
the fixed pattern wherever it occurs in the text, yields no keys when
the pattern does not match and the body marker is absent, and maps the
reference input to the expected two keys. -/
theorem C6_error_pattern_extraction :
    parse_k8s_api_error "(404) Reason: NotFound"
        = [(.str "status_code", .str "404"), (.str "reason", .str "NotFound")] ∧
    parse_k8s_api_error "xx (500)  Reason: Forbidden yy"
        = [(.str "status_code", .str "500"), (.str "reason", .str "Forbidden")] ∧
    (∀ s c r, reSearch s.data = some (c, r) → inStr bodyMarker s = false →
        parse_k8s_api_error s = [(.str "status_code", .str c), (.str "reason", .str r)]) ∧
    (∀ s, reSearch s.data = none → inStr bodyMarker s = false →
        parse_k8s_api_error s = []) := by
  refine ⟨rfl, rfl, ?_, ?_⟩
  · intro s c r h1 h2
    simp [parse_k8s_api_error, h1, h2]
  · intro s h1 h2
    simp [parse_k8s_api_error, h1, h2]

/-- Witness for C6: the pattern found mid-text, and a text without
pattern or marker parsing to the empty mapping. -/
theorem C6_error_pattern_extraction_witness :
    parse_k8s_api_error "zz (502) Reason: BadGateway"
        = [(.str "status_code", .str "502"), (.str "reason", .str "BadGateway")] ∧
    parse_k8s_api_error "no pattern here" = [] :=
  ⟨C6_error_pattern_extraction.2.2.1 "zz (502) Reason: BadGateway" "502" "BadGateway" rfl rfl,
   C6_error_pattern_extraction.2.2.2 "no pattern here" rfl rfl⟩

/-- A separator that does not occur in a list splits it into the whole
list and nothing. -/
lemma splitFirst_of_not_contains (sep t : List Char) (h : inStrL sep t = false) :
    splitFirst sep t = (t, none) := by
  induction t with
  | nil => rfl
  | cons c rest ih =>
    rw [inStrL] at h
    rcases Bool.or_eq_false_iff.mp h with ⟨hp, hr⟩
    simp [splitFirst, hp, ih hr]

/-- C7 counterexample: when the marker occurs twice, only the segment
between the two occurrences is stored, not the trailing text after the
first marker. -/
theorem C7_second_marker_segment :
    dictLookup (parse_k8s_api_error exBody4) "full_body" = some (.str "not-json") ∧
    specTrailing exBody4 = "not-json HTTP response body: tail" ∧
    ("not-json" : String) ≠ "not-json HTTP response body: tail" :=
  ⟨rfl, rfl, by decide⟩

/-- C7 amended: when the marker occurs and does not reoccur in the text
after it, the parser trims the trailing text, decodes it as JSON, and
hands the decoded value to dict.update, which merges the entries of a
mapping, later keys overwriting earlier ones, and also merges a decoded
sequence of key/value pairs; when the decode fails or dict.update
raises, the trimmed trailing text is stored under full_body, together
with whatever entries a partially completed merge already assigned, and
nothing propagates; the reference inputs behave accordingly. -/
theorem C7_body_parsing :
    (∀ s, inStr bodyMarker s = true →
        inStrL bodyMarker.data ((splitFirst bodyMarker.data s.data).2.getD []) = false →
        parse_k8s_api_error s =
          (let base : PyDict :=
             match reSearch s.data with
             | some (c, r) => [(.str "status_code", PyVal.str c), (.str "reason", PyVal.str r)]
             | none => []
           match json_loads (specTrailing s) with
           | some v =>
             let p := pyUpdate base v
             if p.2 then p.1 else dictSet p.1 "full_body" (.str (specTrailing s))
           | none => dictSet base "full_body" (.str (specTrailing s)))) ∧
    dictLookup (parse_k8s_api_error exBody1) "message" = some (.str "x") ∧
    parse_k8s_api_error exBody2 = [(.str "full_body", .str "not-json")] ∧
    dictLookup (parse_k8s_api_error exBody3) "reason" = some (.str "Gone") ∧
    dictLookup (parse_k8s_api_error exBody3) "status_code" = some (.str "404") ∧
    parse_k8s_api_error exBody6 = [(.str "a", .str "b")] ∧
    parse_k8s_api_error exBody7 = [(.str "a", .jnum "nan")] ∧
    parse_k8s_api_error exBody8
      = [(.str "a", .str "b"), (.str "full_body", .str "[[\"a\",\"b\"], 5]")] := by
  refine ⟨?_, rfl, rfl, rfl, rfl, rfl, rfl, rfl⟩
  intro s h1 h2
  simp only [parse_k8s_api_error, h1, if_true]
  rw [splitFirst_of_not_contains _ _ h2]
  rfl

/-- Witness for C7 at the undecodable-body input. -/
theorem C7_body_parsing_witness :
    inStr bodyMarker exBody2 = true ∧
    inStrL bodyMarker.data ((splitFirst bodyMarker.data exBody2.data).2.getD []) = false ∧
    parse_k8s_api_error exBody2 =
      (let base : PyDict :=
         match reSearch exBody2.data with
         | some (c, r) => [(.str "status_code", PyVal.str c), (.str "reason", PyVal.str r)]
         | none => []
       match json_loads (specTrailing exBody2) with
       | some v =>
         let p := pyUpdate base v
         if p.2 then p.1 else dictSet p.1 "full_body" (.str (specTrailing exBody2))
       | none => dictSet base "full_body" (.str (specTrailing exBody2))) :=
  ⟨rfl, rfl, C7_body_parsing.1 exBody2 rfl rfl⟩

/-- An empty-dict test succeeds only on the empty mapping. -/
lemma eq_empty_dict_of_isEmptyDict {v : PyVal} (h : isEmptyDict v = true) :
    v = .dict [] := by
  cases v with
  | dict entries => cases entries with
    | nil => rfl
    | cons kv rest => simp [isEmptyDict] at h
  | str s => simp [isEmptyDict] at h
  | int n => simp [isEmptyDict] at h
  | jnum l => simp [isEmptyDict] at h
  | bool b => simp [isEmptyDict] at h
  | null => simp [isEmptyDict] at h
  | list l => simp [isEmptyDict] at h

/-- An empty-mapping entry of a parsed API error renders to nothing. -/
lemma renderParsedEntry_empty_dict (k : PyKey) :
    renderParsedEntry k (.dict []) = [] := by
  unfold renderParsedEntry
  cases k with
  | str ks =>
    dsimp only
    by_cases hk : excludedKeys.contains ks = true
    · rw [if_pos hk]
    · rw [if_neg hk]
      rfl
  | int n => rfl
  | jnum l => rfl
  | bool b => rfl
  | null => rfl

/-- No section rendered for an entry of a parsed API error displays an
empty mapping. -/
lemma noEmpty_renderParsedEntry (k : PyKey) (v : PyVal) :
    (renderParsedEntry k v).all (fun s => !isEmptyMapSection s) = true := by
  unfold renderParsedEntry
  cases k with
  | str ks =>
    dsimp only
    by_cases hk : excludedKeys.contains ks = true
    · rw [if_pos hk]; rfl
    · rw [if_neg hk]
      cases v with
      | dict entries => cases entries <;> rfl
      | str s => rfl
      | int n => rfl
      | jnum l => rfl
      | bool b => rfl
      | null => rfl
      | list l => rfl
  | int n => rfl
  | jnum l => rfl
  | bool b => rfl
  | null => rfl

/-- No section rendered for a whole parsed API-error mapping displays an
empty mapping. -/
lemma noEmpty_renderParsed (m : PyDict) :
    noEmptyMapSections ((m.map fun kv => renderParsedEntry kv.1 kv.2).flatten) = true := by
  induction m with
  | nil => rfl
  | cons kv rest ih =>
    simp only [noEmptyMapSections, List.map_cons, List.flatten_cons, List.all_append,
      Bool.and_eq_true] at *
    exact ⟨noEmpty_renderParsedEntry kv.1 kv.2, ih⟩

/-- No section rendered for a structured evidence entry whose value is a
scalar or a list of strings displays an empty mapping. -/
lemma noEmpty_renderDictEntry (k : PyKey) (v : PyVal)
    (hv : scalarOrStrList v = true) :
    (renderDictEntry k v).all (fun s => !isEmptyMapSection s) = true := by
  unfold renderDictEntry
  cases k with
  | str ks =>
    dsimp only
    by_cases hk : ks = "last_logs"
    · rw [if_pos hk]; rfl
    · rw [if_neg hk]
      cases v with
      | list l =>
        have hl : l.all isStrV = true := hv
        simp only [List.all_cons, Bool.and_eq_true]
        refine ⟨rfl, ?_⟩
        rw [List.all_eq_true] at hl ⊢
        intro x hx
        rcases List.mem_map.mp hx with ⟨y, hy, hxy⟩
        subst hxy
        have hs := hl y hy
        cases y <;> simp_all [isStrV, isEmptyMapSection]
      | str s => rfl
      | int n => rfl
      | null => rfl
      | jnum l => simp [scalarOrStrList] at hv
      | bool b => simp [scalarOrStrList] at hv
      | dict entries => simp [scalarOrStrList] at hv
  | int n => rfl
  | jnum l => rfl
  | bool b => rfl
  | null => rfl

/-- No section of the rendering of a structured evidence mapping whose
values are scalars or lists of strings displays an empty mapping. -/
lemma noEmpty_renderDict (m : PyDict)
    (h : ∀ kv ∈ m, scalarOrStrList kv.2 = true) :
    noEmptyMapSections ((m.map fun kv => renderDictEntry kv.1 kv.2).flatten) = true := by
  induction m with
  | nil => rfl
  | cons kv rest ih =>
    simp only [noEmptyMapSections, List.map_cons, List.flatten_cons, List.all_append,
      Bool.and_eq_true]
    exact ⟨noEmpty_renderDictEntry kv.1 kv.2 (h kv (List.mem_cons_self kv rest)),
           ih (fun x hx => h x (List.mem_cons_of_mem kv hx))⟩

/-- The last-logs expander renders only plain sections. -/
lemma noEmpty_lastLogsSection (m : PyDict) :
    (lastLogsSection m).all (fun s => !isEmptyMapSection s) = true := by
  unfold lastLogsSection
  rcases hc : dictLookup m "last_logs" with _ | v
  · rfl
  · cases v <;> rfl

/-- C8: for every evidence value of the closed evidence shapes, no
rendered section displays an empty mapping, and the empty-mapping
entries of a parsed API-error mapping contribute no section at all:
rendering the mapping with them removed is the same as rendering the
whole mapping. -/
theorem C8_no_empty_structured_section (ev : PyVal)
    (h : evidenceShape ev = true) :
    noEmptyMapSections (renderEvidence ev) = true ∧
    ∀ m : PyDict,
      ((m.filter fun kv => !isEmptyDict kv.2).map fun kv =>
          renderParsedEntry kv.1 kv.2).flatten
        = (m.map fun kv => renderParsedEntry kv.1 kv.2).flatten := by
  constructor
  · cases ev with
    | str s =>
      by_cases hm : inStr bodyMarker s = true
      · simp only [renderEvidence, hm, if_true, noEmptyMapSections, List.all_cons,
          Bool.and_eq_true]
        exact ⟨rfl, noEmpty_renderParsed (parse_k8s_api_error s)⟩
      · simp only [Bool.not_eq_true] at hm
        simp [renderEvidence, hm, noEmptyMapSections, isEmptyMapSection]
    | list l => simp [renderEvidence, noEmptyMapSections, isEmptyMapSection]
    | dict m =>
      have hshape : ∀ kv ∈ m, scalarOrStrList kv.2 = true := List.all_eq_true.mp h
      simp only [renderEvidence, noEmptyMapSections, List.all_append, Bool.and_eq_true]
      exact ⟨noEmpty_renderDict m hshape, noEmpty_lastLogsSection m⟩
    | int n => simp [evidenceShape] at h
    | jnum l => simp [evidenceShape] at h
    | bool b => simp [evidenceShape] at h
    | null => simp [evidenceShape] at h
  · intro m
    induction m with
    | nil => rfl
    | cons kv rest ih =>
      obtain ⟨k, v⟩ := kv
      by_cases hv : isEmptyDict v = true
      · have hveq := eq_empty_dict_of_isEmptyDict hv
        subst hveq
        rw [List.filter_cons, if_neg (by simp [isEmptyDict])]
        simp only [List.map_cons, List.flatten_cons, renderParsedEntry_empty_dict,
          List.nil_append]
        exact ih
      · simp only [Bool.not_eq_true] at hv
        simp [List.filter_cons, hv, ih]

/-- Witness for C8 at a concrete error text whose JSON body holds an
empty nested mapping, and at a concrete parsed mapping. -/
theorem C8_no_empty_structured_section_witness :
    noEmptyMapSections (renderEvidence (.str exBody5)) = true ∧
    ((exParsedEx.filter fun kv => !isEmptyDict kv.2).map fun kv =>
        renderParsedEntry kv.1 kv.2).flatten
      = (exParsedEx.map fun kv => renderParsedEntry kv.1 kv.2).flatten :=
  ⟨(C8_no_empty_structured_section (.str exBody5) rfl).1,
   (C8_no_empty_structured_section (.str exBody5) rfl).2 exParsedEx⟩

/-- C5: a failed event fetch behaves exactly as an empty event list, a
failed log fetch behaves exactly as an empty log string, and every
reachable pod still yields a report with the standard four fields. -/
theorem C5_degraded_evidence (pod_name ns : String) (pod : Pod) :
    (∀ logsR, diagnose_pod pod_name ns (.ok pod) (.error ()) logsR
        = diagnose_pod pod_name ns (.ok pod) (.ok []) logsR) ∧
    (∀ eventsR, diagnose_pod pod_name ns (.ok pod) eventsR (.error ())
        = diagnose_pod pod_name ns (.ok pod) eventsR (.ok "")) ∧
    (∀ eventsR logsR,
        (diagnose_pod pod_name ns (.ok pod) eventsR logsR).map Prod.fst = reportKeys) :=
  ⟨fun _ => rfl, fun _ => rfl, fun eventsR logsR => report_keys_of_ok pod_name ns pod eventsR logsR⟩

end PodDiag
